import Mathlib

/-!
Verification of the browser-side voice-input feature of the
`neuralskyassist` repository against its natural-language specification.

The development shallowly embeds the speech-capture pipeline of
`src/components/multimodal-input.tsx` (capability probing, the hybrid
record/stop toggle handler and its socket / recognizer callbacks) and the
server-side transcription endpoints
(`src/app/(chat)/api/whisper/route.ts`, `src/unnamed/part_001`).
Strings are modelled as `List Char`; JavaScript's mutable component
state (React refs and state hooks) is modelled as an explicit record
threaded through event-handler functions.
-/

namespace NeuralSkyAssist

/-! ## Character / string helpers (JavaScript `\s`, `trim`, substring) -/

/-- ASCII whitespace, as matched by JavaScript's `\s` and removed by
`String.prototype.trim` for the character range used in this codebase. -/
def isWs (c : Char) : Bool :=
  c == ' ' || c == '\t' || c == '\n' || c == '\r' || c == '\x0b' || c == '\x0c'

/-- `trimChars s` drops leading and trailing whitespace: the embedding of
JavaScript `String.prototype.trim`. -/
def trimChars (s : List Char) : List Char :=
  ((s.dropWhile isWs).reverse.dropWhile isWs).reverse

/-- Does `pat` occur as a leading segment of `l`? -/
def leadsList : List Char → List Char → Bool
  | [], _ => true
  | _ :: _, [] => false
  | p :: ps, h :: hs => p == h && leadsList ps hs

/-- Does `pat` occur as a contiguous segment of `l`?  Used to embed the
regular-expression test `/iPhone|iPad|iPod/i.test(ua)`. -/
def containsSeg (pat : List Char) : List Char → Bool
  | [] => leadsList pat []
  | h :: hs => leadsList pat (h :: hs) || containsSeg pat hs

/-- Lower-case every character (the `i` flag of the user-agent regex). -/
def lowerStr (s : List Char) : List Char := s.map Char.toLower

/-! ## Capability Prober (`src/components/multimodal-input.tsx`, lines 39-56)

`isIos` embeds the function of the same name; `canUseWebSpeech` embeds the
function of the same name; `chooseStrategy` embeds the strategy selection
made by `handleRecordClick` on `webSpeechSupported` (line 248 and the
branch at line 260). -/

/-- The platform state read by the prober: whether `navigator` / `window`
exist, the user-agent string, and the two Web Speech feature flags
(`window.SpeechRecognition`, `window.webkitSpeechRecognition`). -/
structure Platform where
  navigatorDefined : Bool
  userAgent : List Char
  windowDefined : Bool
  speechRecognition : Bool
  webkitSpeechRecognition : Bool
deriving Repr, DecidableEq

/-- The case-insensitive test `/iPhone|iPad|iPod/i.test(ua)`. -/
def iosUaTest (ua : List Char) : Bool :=
  containsSeg "iphone".toList (lowerStr ua) ||
  containsSeg "ipad".toList (lowerStr ua) ||
  containsSeg "ipod".toList (lowerStr ua)

/-- Embedding of `isIos()`: `false` when `navigator` is undefined,
otherwise the user-agent regex test. -/
def isIos (p : Platform) : Bool :=
  if !p.navigatorDefined then false else iosUaTest p.userAgent

/-- Embedding of `canUseWebSpeech()`: forced `false` on iOS, `false`
without `window`, otherwise presence of either Web Speech constructor. -/
def canUseWebSpeech (p : Platform) : Bool :=
  if isIos p then false
  else if !p.windowDefined then false
  else p.speechRecognition || p.webkitSpeechRecognition

/-- The two transcription strategies of the capture pipeline. -/
inductive CaptureStrategy
  | localRecognizer
  | streamingVendor
deriving Repr, DecidableEq

/-- Embedding of the strategy selection in `handleRecordClick`:
the Web Speech path when `webSpeechSupported`, else the Deepgram
streaming fallback. -/
def chooseStrategy (p : Platform) : CaptureStrategy :=
  if canUseWebSpeech p then .localRecognizer else .streamingVendor

/-- The bare local-capability detection (ignoring the iOS override):
`window` exists and one of the two Web Speech constructors is present. -/
def localCapabilityDetected (p : Platform) : Bool :=
  p.windowDefined && (p.speechRecognition || p.webkitSpeechRecognition)

/-- C6: `chooseStrategy` is deterministic/pure (same platform state gives
the same strategy) and follows the first-match policy: iOS forces the
streaming vendor; otherwise a detected local recognition capability
selects the local recognizer; otherwise the streaming vendor. -/
theorem chooseStrategy_first_match_policy (p : Platform) :
    chooseStrategy p = chooseStrategy p ∧
    chooseStrategy p =
      (if isIos p then CaptureStrategy.streamingVendor
       else if localCapabilityDetected p then CaptureStrategy.localRecognizer
       else CaptureStrategy.streamingVendor) := by
  refine ⟨rfl, ?_⟩
  obtain ⟨nav, ua, win, sr, wsr⟩ := p
  cases h : isIos ⟨nav, ua, win, sr, wsr⟩ <;>
    cases win <;> cases sr <;> cases wsr <;>
      simp [chooseStrategy, canUseWebSpeech, localCapabilityDetected, h]

/-! ## Transcript cleaning
(`src/app/(chat)/api/whisper/route.ts` line 107, `src/unnamed/part_001`
line 63): `transcriptionText.trim().replace(/\s+/, ' ')`.

The `replace` call carries no global flag, so exactly the first maximal
whitespace run of the trimmed string is replaced by a single space;
everything after it is left untouched. -/

/-- Embedding of `.replace(/\s+/, ' ')` on an arbitrary character list:
the first maximal whitespace run (the regex is greedy) is replaced by a
single space; the remainder of the string is returned unchanged. -/
def replaceFirstWsRun : List Char → List Char
  | [] => []
  | c :: cs =>
    if isWs c then ' ' :: cs.dropWhile isWs
    else c :: replaceFirstWsRun cs

/-- Embedding of `transcriptionText.trim().replace(/\s+/, ' ')`. -/
def cleanTranscript (s : List Char) : List Char :=
  replaceFirstWsRun (trimChars s)

/-- `MIN_TRANSCRIPT_LENGTH` (whisper route line 68 / part_001 line 16). -/
def MIN_TRANSCRIPT_LENGTH : Nat := 5

/-- `MIN_AUDIO_FILE_SIZE` (whisper route line 67 / part_001 line 13,
also `multimodal-input.tsx` line 78). -/
def MIN_AUDIO_FILE_SIZE : Nat := 1000

/-- Outcome of the cleaned-transcript check (whisper route lines
106-112): either the "No meaningful speech detected." error or the
cleaned text. -/
inductive FinalizeResult
  | noSpeech
  | text (t : List Char)
deriving Repr, DecidableEq

/-- Embedding of whisper route lines 106-112: clean the transcript and
reject it when its cleaned length is below `MIN_TRANSCRIPT_LENGTH`. -/
def finalizeTranscript (s : List Char) : FinalizeResult :=
  let cleaned := cleanTranscript s
  if cleaned.length < MIN_TRANSCRIPT_LENGTH then .noSpeech
  else .text cleaned

/-! ## Whisper transcription endpoint
(`src/app/(chat)/api/whisper/route.ts` lines 70-117, matching
`src/unnamed/part_001` lines 24-75). -/

/-- The JSON response shapes the POST handler can produce:
`badRequest e` is HTTP 400 with body `{error: e}`; `okError e` is
HTTP 200 with body `{error: e}` (no `text` field); `okText t` is
HTTP 200 with body `{text: t}`; `serverError e` is HTTP 500 with body
`{error: e}` (the catch clause). -/
inductive WhisperResponse
  | badRequest (error : List Char)
  | okError (error : List Char)
  | okText (text : List Char)
  | serverError (error : List Char)
deriving Repr, DecidableEq

/-- The HTTP status of each response shape. -/
def statusOf : WhisperResponse → Nat
  | .badRequest _ => 400
  | .okError _ => 200
  | .okText _ => 200
  | .serverError _ => 500

/-- Does the response body carry a `text` field? -/
def hasTextField : WhisperResponse → Bool
  | .okText _ => true
  | _ => false

/-- Does the response body carry an `error` field? -/
def isErrorBody : WhisperResponse → Bool
  | .okText _ => false
  | _ => true

def noFileMsg : List Char := "No audio file provided".toList
def noAudioMsg : List Char := "No meaningful audio recorded.".toList
def noSpeechMsg : List Char := "No meaningful speech detected.".toList

/-- Embedding of the whisper `POST` handler (route lines 70-117).
`audioSize?` is `formData.get('audio')`: `none` when the field is
missing, `some size` the uploaded file's byte size.  The external
OpenAI transcription call is a parameter: `Except.error e` when it
throws (the catch clause returns HTTP 500), `Except.ok t` the
transcript text it returns. -/
def whisperPost (audioSize? : Option Nat)
    (transcription : Except (List Char) (List Char)) : WhisperResponse :=
  match audioSize? with
  | none => .badRequest noFileMsg
  | some size =>
    if size < MIN_AUDIO_FILE_SIZE then .okError noAudioMsg
    else
      match transcription with
      | .error e => .serverError e
      | .ok t =>
        match finalizeTranscript t with
        | .noSpeech => .okError noSpeechMsg
        | .text cleaned => .okText cleaned

/-! ## Deepgram inbound messages
(`src/components/multimodal-input.tsx` lines 328-339). -/

/-- One element of `data.channel.alternatives`; `transcript` is `[]`
when the field is absent or the empty string (both falsy in the guard
`if (alt && alt.transcript)`). -/
structure DgAlt where
  transcript : List Char
deriving Repr, DecidableEq

/-- `data.channel`; `alternatives` is `none` when the field is absent
(reading `[0]` of `undefined` then throws a TypeError). -/
structure DgChannel where
  alternatives : Option (List DgAlt)
deriving Repr, DecidableEq

/-- A parsed message body; `channel` is `none` when the field is absent
(falsy, so the handler skips the body). -/
structure DgData where
  channel : Option DgChannel
deriving Repr, DecidableEq

/-- What the `dgSocket.onmessage` handler does with one inbound frame.
Its argument models `JSON.parse(msg.data)`: `none` when the payload is
not valid JSON (`JSON.parse` throws, and nothing in the handler catches).
`crash` means an exception escapes the handler uncaught; `setText t`
means `setInput(alt.transcript)` was called; `skip` means the handler
returned without effect. -/
inductive MsgEffect
  | crash
  | setText (t : List Char)
  | skip
deriving Repr, DecidableEq

/-- Embedding of the `dgSocket.onmessage` handler body (lines 328-339). -/
def dgMessageEffect (parsed : Option DgData) : MsgEffect :=
  match parsed with
  | none => .crash
  | some data =>
    match data.channel with
    | none => .skip
    | some ch =>
      match ch.alternatives with
      | none => .crash
      | some alts =>
        match alts.head? with
        | none => .skip
        | some alt =>
          if alt.transcript.isEmpty then .skip else .setText alt.transcript

/-! ## The hybrid record/stop component
(`src/components/multimodal-input.tsx` lines 238-394).

The mutable React state of `PureMultimodalInput` relevant to the capture
pipeline, threaded explicitly through the event handlers. -/

/-- `MIN_RECORD_DURATION_MS` (line 77). -/
def MIN_RECORD_DURATION_MS : Int := 800

def tooShortMsg : List Char := "Recording too short; no audio detected.".toList
def micErrMsg : List Char := "Cannot access microphone or speech API!".toList

/-- Component state: `isRecording` (the React state hook), `input` (the
composer text set via `setInput`), `recordStart` (`recordStartRef`),
`liveMics` (the number of microphone streams whose tracks are live),
`curSocketOpen` (current socket `readyState === OPEN`),
`curRecorderActive` (current `MediaRecorder` not `inactive`),
`finalTranscript` (the Web Speech closure variable), `toasts` (messages
shown via `toast.error`), `sent` (byte sizes of chunks sent on the
socket), and `crashed` (an exception escaped a handler uncaught). -/
structure CompState where
  isRecording : Bool
  input : List Char
  recordStart : Int
  liveMics : Nat
  curSocketOpen : Bool
  curRecorderActive : Bool
  finalTranscript : List Char
  toasts : List (List Char)
  sent : List Nat
  crashed : Bool
deriving Repr, DecidableEq

/-- Initial component state. -/
def initState : CompState :=
  { isRecording := false, input := [], recordStart := 0, liveMics := 0,
    curSocketOpen := false, curRecorderActive := false,
    finalTranscript := [], toasts := [], sent := [], crashed := false }

/-- Events driving the component: `click now` is a mic-button toggle at
time `now` (milliseconds, `Date.now()`); `sockOpen now` is
`dgSocket.onopen`; `sockClose` is `dgSocket.onclose`; `sockMsg d` is
`dgSocket.onmessage` with parsed payload `d`; `recogStart`,
`recogResult txt`, `recogEnd` are the Web Speech `onstart`, `onresult`
(with `txt` the concatenated transcript of all results) and `onend`
callbacks; `dataAvail size` is `mediaRecorder.ondataavailable` with a
chunk of `size` bytes. -/
inductive Ev
  | click (now : Int)
  | sockOpen (now : Int)
  | sockClose
  | sockMsg (parsed : Option DgData)
  | recogStart
  | recogResult (txt : List Char)
  | recogEnd
  | dataAvail (size : Nat)
deriving Repr, DecidableEq

/-- One event-handler dispatch of the component.  `ws` is the fixed
`webSpeechSupported` flag (line 248).  The `click` case embeds
`handleRecordClick` (lines 256-394) with microphone permission granted;
the remaining cases embed the callbacks it installs. -/
def step (ws : Bool) (s : CompState) : Ev → CompState
  | .click now =>
    if s.isRecording then
      if ws then
        s
      else
        let micsAfter := if s.curRecorderActive then s.liveMics - 1 else s.liveMics
        let s1 : CompState :=
          { s with curRecorderActive := false, liveMics := micsAfter,
                   curSocketOpen := false, isRecording := false }
        if now - s.recordStart < MIN_RECORD_DURATION_MS then
          { s1 with toasts := s1.toasts ++ [tooShortMsg] }
        else s1
    else
      if ws then
        { s with finalTranscript := [] }
      else
        { s with curSocketOpen := false, liveMics := s.liveMics + 1,
                 curRecorderActive := true }
  | .sockOpen now =>
    { s with isRecording := true, input := [], recordStart := now,
             curSocketOpen := true }
  | .sockClose =>
    { s with isRecording := false, curSocketOpen := false }
  | .sockMsg parsed =>
    match dgMessageEffect parsed with
    | .crash => { s with crashed := true }
    | .setText t => { s with input := t }
    | .skip => s
  | .recogStart =>
    { s with isRecording := true }
  | .recogResult txt =>
    { s with finalTranscript := txt, input := txt }
  | .recogEnd =>
    if (trimChars s.finalTranscript).isEmpty then
      { s with isRecording := false, toasts := s.toasts ++ [noSpeechMsg] }
    else
      { s with isRecording := false, input := trimChars s.finalTranscript }
  | .dataAvail size =>
    if 0 < size && s.curSocketOpen then { s with sent := s.sent ++ [size] }
    else s

/-- Run a sequence of events through the component. -/
def run (ws : Bool) : List Ev → CompState → CompState
  | [], s => s
  | e :: es, s => run ws es (step ws s e)

/-- A complete toggle on the streaming path in which the socket-open
callback is delivered before the next user action: a stop click when the
session is recording, otherwise a start click immediately followed by
`onopen`. -/
def macroToggle (now : Int) (s : CompState) : CompState :=
  if s.isRecording then step false s (.click now)
  else step false (step false s (.click now)) (.sockOpen now)

/-- Run a sequence of completed toggles (timestamps) on the streaming
path. -/
def runMacro : List Int → CompState → CompState
  | [], s => s
  | t :: ts, s => runMacro ts (macroToggle t s)

/-! ## Streaming session start chain
(`src/components/multimodal-input.tsx` lines 300-361 and the catch at
lines 390-393). -/

/-- The credential the client passes as the WebSocket subprotocol token
(line 303): a constant embedded in client code. -/
def dgKeyConstant : List Char := "YOUR_DEEPGRAM_API_KEY".toList

/-- Observable result of the streaming start chain: whether the Deepgram
socket object was created, whether it was closed again before the
handler returned, which credential was passed to it, whether any backend
credential endpoint was called first, whether the microphone stream was
acquired, whether the `MediaRecorder` was started, and the error toast
shown, if any. -/
structure StartResult where
  socketCreated : Bool
  socketClosed : Bool
  socketKey : List Char
  credentialFetched : Bool
  micOpen : Bool
  recorderStarted : Bool
  errorToast : Option (List Char)
deriving Repr, DecidableEq

/-- Embedding of the streaming start branch of `handleRecordClick`:
the WebSocket is constructed first (lines 303-306) with the embedded
constant key and no prior backend fetch; then `getUserMedia` is awaited
(line 309).  When `micGranted` is false that call rejects and control
jumps to the catch (lines 390-393), which only logs and shows a toast —
it closes nothing. -/
def streamingStartChain (micGranted : Bool) : StartResult :=
  if micGranted then
    { socketCreated := true, socketClosed := false, socketKey := dgKeyConstant,
      credentialFetched := false, micOpen := true, recorderStarted := true,
      errorToast := none }
  else
    { socketCreated := true, socketClosed := false, socketKey := dgKeyConstant,
      credentialFetched := false, micOpen := false, recorderStarted := false,
      errorToast := some micErrMsg }

/-! ## Audio chunk forwarding
(`src/components/multimodal-input.tsx` lines 349-354). -/

/-- What `mediaRecorder.ondataavailable` does with one chunk. -/
inductive ChunkAction
  | send (size : Nat)
  | drop
deriving Repr, DecidableEq

/-- Embedding of the `ondataavailable` handler: a chunk is sent exactly
when its size is positive and the socket's `readyState` is `OPEN`. -/
def onDataAvailable (size : Nat) (socketIsOpen : Bool) : ChunkAction :=
  if 0 < size && socketIsOpen then .send size else .drop

/-! ## Helper lemmas on whitespace handling -/

theorem dropWhile_cons_false {a : Char} {l : List Char} (h : isWs a = false) :
    List.dropWhile isWs (a :: l) = a :: l := by
  simp [List.dropWhile_cons, h]

theorem dropWhile_ws_append {r y : List Char} (hr : ∀ c ∈ r, isWs c = true) :
    List.dropWhile isWs (r ++ y) = List.dropWhile isWs y := by
  induction r with
  | nil => simp
  | cons a rs ih =>
    have ha : isWs a = true := hr a (by simp)
    simpa [List.dropWhile_cons, ha] using ih fun c hc => hr c (by simp [hc])

theorem headD_append_left {u v : List Char} (h : u ≠ []) (d : Char) :
    (u ++ v).headD d = u.headD d := by
  cases u with
  | nil => exact absurd rfl h
  | cons a u' => simp

theorem trimChars_eq_self {l : List Char} (hne : l ≠ [])
    (hh : isWs (l.headD 'a') = false)
    (hl : isWs (l.reverse.headD 'a') = false) :
    trimChars l = l := by
  unfold trimChars
  cases l with
  | nil => exact absurd rfl hne
  | cons a l' =>
    have ha : isWs a = false := by simpa using hh
    rw [dropWhile_cons_false ha]
    cases hrev : (a :: l').reverse with
    | nil => simpa using congrArg List.length hrev
    | cons b m =>
      have hb : isWs b = false := by rw [hrev] at hl; simpa using hl
      rw [dropWhile_cons_false hb, ← hrev, List.reverse_reverse]

theorem replaceFirstWsRun_append {x r y : List Char}
    (hx : ∀ c ∈ x, isWs c = false)
    (hrne : r ≠ []) (hr : ∀ c ∈ r, isWs c = true)
    (hy : isWs (y.headD 'a') = false) :
    replaceFirstWsRun (x ++ r ++ y) = x ++ ' ' :: y := by
  induction x with
  | nil =>
    cases r with
    | nil => exact absurd rfl hrne
    | cons b r' =>
      have hb : isWs b = true := hr b (by simp)
      have hdrop : List.dropWhile isWs (r' ++ y) = y := by
        rw [dropWhile_ws_append fun c hc => hr c (by simp [hc])]
        cases y with
        | nil => simp
        | cons c y' => exact dropWhile_cons_false (by simpa using hy)
      simp [replaceFirstWsRun, hb, hdrop]
  | cons a x' ih =>
    have ha : isWs a = false := hx a (by simp)
    have := ih fun c hc => hx c (by simp [hc])
    simp only [List.cons_append, replaceFirstWsRun, ha]
    simpa using this

/-! ## Single-session invariant on the streaming path -/

/-- The resource-count invariant: the recording flag tracks whether the
current recorder is active, and exactly one microphone stream is live
while it is. -/
def micInv (s : CompState) : Prop :=
  s.isRecording = s.curRecorderActive ∧
  s.liveMics = (if s.curRecorderActive then 1 else 0)

theorem micInv_init : micInv initState := by
  constructor <;> rfl

theorem macroToggle_micInv {s : CompState} (h : micInv s) (now : Int) :
    micInv (macroToggle now s) := by
  obtain ⟨h1, h2⟩ := h
  cases hrec : s.isRecording with
  | false =>
    have hcra : s.curRecorderActive = false := by rw [← h1, hrec]
    have hm : s.liveMics = 0 := by rw [h2, if_neg (by simp [hcra])]
    simp [macroToggle, step, hrec, micInv, hm]
  | true =>
    have hcra : s.curRecorderActive = true := by rw [← h1, hrec]
    have hm : s.liveMics = 1 := by rw [h2, if_pos hcra]
    by_cases hd : now - s.recordStart < MIN_RECORD_DURATION_MS <;>
      simp [macroToggle, step, hrec, hcra, hm, hd, micInv]

theorem runMacro_micInv (ts : List Int) {s : CompState} (h : micInv s) :
    micInv (runMacro ts s) := by
  induction ts generalizing s with
  | nil => exact h
  | cons t ts ih => exact ih (macroToggle_micInv h t)

/-! ## Claim theorems -/

/-- C1: the claim says a malformed (non-JSON) inbound streaming message
never throws uncaught, is dropped, and surfaces a parse-error warning.
The code calls `JSON.parse` in `dgSocket.onmessage` with no try/catch:
on an unparseable payload the handler throws uncaught and shows no
warning toast (here evaluated in a concrete `Active` session state; the
recording flag is left `true` but the exception escapes). -/
theorem malformedMessage_crashes_without_warning :
    dgMessageEffect none = .crash ∧
    step false
      { initState with isRecording := true, curSocketOpen := true,
                       curRecorderActive := true, liveMics := 1 }
      (.sockMsg none) =
    { initState with isRecording := true, curSocketOpen := true,
                     curRecorderActive := true, liveMics := 1,
                     crashed := true } := by
  decide

/-- C2: the claim says a failure during session start (in particular a
microphone `PermissionDenied`) closes every already-opened sub-resource
before returning to `Idle`.  The code constructs the Deepgram WebSocket
before awaiting `getUserMedia`; when that call rejects, the catch at
lines 390-393 only logs and shows a toast, leaving the already-created
socket unclosed. -/
theorem startFailure_leaves_socket_unclosed :
    (streamingStartChain false).socketCreated = true ∧
    (streamingStartChain false).socketClosed = false ∧
    (streamingStartChain false).micOpen = false ∧
    (streamingStartChain false).recorderStarted = false ∧
    (streamingStartChain false).errorToast = some micErrMsg := by
  decide

/-- C3: the claim says the streaming credential is a short-lived token
fetched fresh from the backend, and a missing/empty key aborts start
before any socket is opened.  The code instead authenticates the socket
with the hard-coded client-side constant `'YOUR_DEEPGRAM_API_KEY'`,
performs no backend fetch, does not validate the key, and always creates
the socket — whether or not the microphone is subsequently granted. -/
theorem credential_embedded_and_unvalidated :
    ((streamingStartChain true).credentialFetched = false ∧
     (streamingStartChain true).socketKey = dgKeyConstant ∧
     (streamingStartChain true).socketCreated = true) ∧
    ((streamingStartChain false).credentialFetched = false ∧
     (streamingStartChain false).socketKey = dgKeyConstant ∧
     (streamingStartChain false).socketCreated = true) ∧
    dgKeyConstant ≠ [] := by
  decide

/-- C4 counterexample: the claim says cleaning collapses every internal
whitespace run.  The `replace(/\s+/, ' ')` call has no global flag, so
on `" a  b  c "` the code produces `"a b  c"` (second run untouched),
not the claimed `"a b c"`. -/
theorem cleaning_collapses_only_first_run_cex :
    cleanTranscript " a  b  c ".toList = "a b  c".toList ∧
    cleanTranscript " a  b  c ".toList ≠ "a b c".toList := by
  decide

/-- C4 (amended): cleaning trims leading/trailing whitespace and
collapses only the first internal whitespace run to a single space
(later runs are left unchanged); the spec's example
`"  hello   world  "` still cleans to `"hello world"` since it has a
single internal run; and a cleaned transcript shorter than the
5-character minimum is rejected as no-meaningful-speech rather than
emitted. -/
theorem cleaning_policy_amended :
    cleanTranscript "  hello   world  ".toList = "hello world".toList ∧
    (∀ s, finalizeTranscript s = .noSpeech ↔
        (cleanTranscript s).length < MIN_TRANSCRIPT_LENGTH) ∧
    (∀ s, MIN_TRANSCRIPT_LENGTH ≤ (cleanTranscript s).length →
        finalizeTranscript s = .text (cleanTranscript s)) ∧
    (∀ x r y : List Char, (∀ c ∈ x, isWs c = false) →
        r ≠ [] → (∀ c ∈ r, isWs c = true) →
        x ≠ [] → y ≠ [] →
        isWs (y.headD 'a') = false → isWs (y.reverse.headD 'a') = false →
        cleanTranscript (x ++ r ++ y) = x ++ ' ' :: y) := by
  refine ⟨by decide, ?_, ?_, ?_⟩
  · intro s
    unfold finalizeTranscript
    by_cases hc : (cleanTranscript s).length < MIN_TRANSCRIPT_LENGTH <;>
      simp [hc]
  · intro s hs
    unfold finalizeTranscript
    simp [not_lt.mpr hs]
  · intro x r y hx hrne hr hxne hyne hy hyl
    unfold cleanTranscript
    have hhead : isWs ((x ++ r ++ y).headD 'a') = false := by
      rw [List.append_assoc, headD_append_left hxne]
      cases x with
      | nil => exact absurd rfl hxne
      | cons a x' => simpa using hx a (by simp)
    have hlast : isWs ((x ++ r ++ y).reverse.headD 'a') = false := by
      rw [List.reverse_append, headD_append_left (by simpa using hyne)]
      exact hyl
    rw [trimChars_eq_self (by simp [hxne]) hhead hlast]
    exact replaceFirstWsRun_append hx hrne hr hy

/-- C4 witness: the amended theorem applied at concrete inputs:
`"ab" ++ "  " ++ "cd ef"` cleans to `"ab cd ef"` (first run collapsed,
the single space inside `y` untouched), and `"hi"` (length 2 < 5) is
rejected as no-meaningful-speech. -/
theorem cleaning_policy_amended_witness :
    cleanTranscript ("ab".toList ++ "  ".toList ++ "cd ef".toList) =
      "ab".toList ++ ' ' :: "cd ef".toList ∧
    finalizeTranscript "hi".toList = .noSpeech := by
  constructor
  · exact cleaning_policy_amended.2.2.2 "ab".toList "  ".toList "cd ef".toList
      (by decide) (by decide) (by decide) (by decide) (by decide)
      (by decide) (by decide)
  · exact (cleaning_policy_amended.2.1 "hi".toList).mpr (by decide)

/-- C5 counterexample: the claim concludes that two simultaneously open
microphone handles never exist for any sequence of toggle events.  Two
toggles in a row on the streaming path, with the second arriving while
the first session is still `Starting` (its `onopen` has not yet set the
recording flag), both take the start branch: two microphone streams are
live at once. -/
theorem double_click_during_starting_two_mics :
    (run false [.click 0, .click 1] initState).liveMics = 2 := by
  decide

/-- C5 (amended): when each streaming start completes (its socket-open
callback fires before the next toggle), at most one microphone stream is
ever live across any toggle sequence; and a toggle that does arrive while
the session is recording always takes the stop branch — deactivating the
recorder and never acquiring a new microphone.  Two open handles arise
only by toggling again during `Starting`, as in the counterexample. -/
theorem single_session_amended :
    (∀ ts : List Int, (runMacro ts initState).liveMics ≤ 1) ∧
    (∀ (s : CompState) (now : Int), s.isRecording = true →
        (step false s (.click now)).curRecorderActive = false ∧
        (step false s (.click now)).liveMics ≤ s.liveMics ∧
        (step false s (.click now)).isRecording = false) := by
  constructor
  · intro ts
    have h := runMacro_micInv ts micInv_init
    rw [h.2]
    split <;> omega
  · intro s now hrec
    by_cases hd : now - s.recordStart < MIN_RECORD_DURATION_MS <;>
      refine ⟨?_, ?_, ?_⟩ <;>
        simp [step, hrec, hd] <;> split <;> omega

/-- C5 witness: the amended theorem at a concrete toggle sequence and a
concrete recording state. -/
theorem single_session_amended_witness :
    (runMacro [0, 1000, 2000] initState).liveMics ≤ 1 ∧
    (step false
      { initState with isRecording := true, curSocketOpen := true,
                       curRecorderActive := true, liveMics := 1 }
      (.click 300)).curRecorderActive = false := by
  exact ⟨single_session_amended.1 [0, 1000, 2000],
    (single_session_amended.2
      { initState with isRecording := true, curSocketOpen := true,
                       curRecorderActive := true, liveMics := 1 }
      300 rfl).1⟩

/-- C7 counterexample: the claim says a session stopped below the 800 ms
minimum reports a too-short warning and leaves the composer unchanged on
both paths.  On the local-recognizer path the code performs no duration
check at all: a session toggled off after 300 ms shows no warning and
commits the transcript to the composer. -/
theorem short_local_recording_no_warning_cex :
    (run true [.click 0, .recogStart, .recogResult "hello there".toList,
               .click 300, .recogEnd] initState).toasts = [] ∧
    (run true [.click 0, .recogStart, .recogResult "hello there".toList,
               .click 300, .recogEnd] initState).input =
      "hello there".toList := by
  decide

/-- C7 (amended): the 800 ms minimum-duration check exists only on the
streaming path.  A streaming session stopped below the threshold appends
the too-short warning, leaves the composer text unchanged, clears the
recording flag, and deactivates the recorder (releasing its microphone
tracks); at or above the threshold no warning is added; and no event on
the local-recognizer path ever emits the too-short warning (its `onend`
can only add the no-meaningful-speech toast). -/
theorem min_duration_check_amended :
    (∀ (s : CompState) (now : Int), s.isRecording = true →
        now - s.recordStart < MIN_RECORD_DURATION_MS →
        (step false s (.click now)).toasts = s.toasts ++ [tooShortMsg] ∧
        (step false s (.click now)).input = s.input ∧
        (step false s (.click now)).isRecording = false ∧
        (step false s (.click now)).curRecorderActive = false) ∧
    (∀ (s : CompState) (now : Int), s.isRecording = true →
        MIN_RECORD_DURATION_MS ≤ now - s.recordStart →
        (step false s (.click now)).toasts = s.toasts) ∧
    (∀ (s : CompState) (e : Ev), (step true s e).toasts = s.toasts ∨
        (step true s e).toasts = s.toasts ++ [noSpeechMsg]) := by
  refine ⟨?_, ?_, ?_⟩
  · intro s now hrec hd
    refine ⟨?_, ?_, ?_, ?_⟩ <;> simp [step, hrec, hd]
  · intro s now hrec hd
    simp [step, hrec, not_lt.mpr hd]
  · intro s e
    cases e with
    | click now =>
      by_cases hr : s.isRecording <;> simp [step, hr]
    | sockOpen now => simp [step]
    | sockClose => simp [step]
    | sockMsg parsed =>
      cases h : dgMessageEffect parsed <;> simp [step, h]
    | recogStart => simp [step]
    | recogResult txt => simp [step]
    | recogEnd =>
      by_cases h : (trimChars s.finalTranscript).isEmpty <;> simp [step, h]
    | dataAvail size =>
      by_cases h : (0 < size && s.curSocketOpen) = true <;> simp [step, h]

/-- C7 witness: the amended theorem at a concrete streaming session
stopped after 300 ms. -/
theorem min_duration_check_amended_witness :
    (step false
      { initState with isRecording := true, recordStart := 0,
                       curSocketOpen := true, curRecorderActive := true,
                       liveMics := 1 }
      (.click 300)).toasts = [] ++ [tooShortMsg] ∧
    (step true initState .recogStart).toasts = initState.toasts ∨
    (step true initState .recogStart).toasts =
      initState.toasts ++ [noSpeechMsg] := by
  exact Or.inl ⟨(min_duration_check_amended.1
      { initState with isRecording := true, recordStart := 0,
                       curSocketOpen := true, curRecorderActive := true,
                       liveMics := 1 }
      300 rfl (by decide)).1,
    ((min_duration_check_amended.2.2 initState .recogStart).resolve_right
      (by decide))⟩

/-- C8 counterexample: the claim says the `transportReady` transition
clears any previously displayed composer text and records the start
timestamp on both strategies.  On the local path, `recognition.onstart`
only sets the recording flag: stale composer text survives and no start
timestamp is recorded. -/
theorem local_transport_ready_cex :
    (step true { initState with input := "stale".toList, recordStart := 7 }
      .recogStart).isRecording = true ∧
    (step true { initState with input := "stale".toList, recordStart := 7 }
      .recogStart).input = "stale".toList ∧
    "stale".toList ≠ ([] : List Char) ∧
    (step true { initState with input := "stale".toList, recordStart := 7 }
      .recogStart).recordStart = 7 := by
  decide

/-- C8 (amended): the streaming `onopen` callback performs all three
`transportReady` effects — it marks the session live, clears the composer
text and records the start timestamp — but the local recognizer's
`onstart` only marks the session live, leaving the composer text and the
previous timestamp untouched. -/
theorem transport_ready_amended (s : CompState) (now : Int) :
    ((step false s (.sockOpen now)).isRecording = true ∧
     (step false s (.sockOpen now)).input = [] ∧
     (step false s (.sockOpen now)).recordStart = now) ∧
    ((step true s .recogStart).isRecording = true ∧
     (step true s .recogStart).input = s.input ∧
     (step true s .recogStart).recordStart = s.recordStart) := by
  refine ⟨⟨?_, ?_, ?_⟩, ⟨?_, ?_, ?_⟩⟩ <;> simp [step]

/-- C9: a zero-byte chunk is always dropped; a chunk is likewise dropped
whenever the socket is not open; a chunk of positive size with the
socket open is sent. -/
theorem chunk_forwarding_policy (size : Nat) (socketIsOpen : Bool) :
    (size = 0 → onDataAvailable size socketIsOpen = .drop) ∧
    (socketIsOpen = false → onDataAvailable size socketIsOpen = .drop) ∧
    (0 < size → socketIsOpen = true →
      onDataAvailable size socketIsOpen = .send size) := by
  refine ⟨?_, ?_, ?_⟩ <;> intro h
  · simp [onDataAvailable, h]
  · simp [onDataAvailable, h]
  · intro ho
    simp [onDataAvailable, h, ho]

/-- C9 witness: the forwarding policy at concrete chunks. -/
theorem chunk_forwarding_policy_witness :
    onDataAvailable 0 true = .drop ∧
    onDataAvailable 5 false = .drop ∧
    onDataAvailable 5 true = .send 5 := by
  exact ⟨(chunk_forwarding_policy 0 true).1 rfl,
    (chunk_forwarding_policy 5 false).2.1 rfl,
    (chunk_forwarding_policy 5 true).2.2 (by decide) rfl⟩

/-- C10: the whisper `POST` contract — a missing `audio` field yields
HTTP 400 with an error body; a file below 1000 bytes, or a cleaned
transcript below 5 characters, yields HTTP 200 with an `{error}` body
and no `text` field; only otherwise does the body carry `{text}` (and
then the text is exactly the cleaned transcript). -/
theorem whisperPost_contract (size : Nat) (t : List Char) :
    (whisperPost none (.ok t) = .badRequest noFileMsg ∧
     statusOf (whisperPost none (.ok t)) = 400 ∧
     isErrorBody (whisperPost none (.ok t)) = true ∧
     hasTextField (whisperPost none (.ok t)) = false) ∧
    (size < MIN_AUDIO_FILE_SIZE →
      whisperPost (some size) (.ok t) = .okError noAudioMsg ∧
      statusOf (whisperPost (some size) (.ok t)) = 200 ∧
      hasTextField (whisperPost (some size) (.ok t)) = false) ∧
    (MIN_AUDIO_FILE_SIZE ≤ size →
      (cleanTranscript t).length < MIN_TRANSCRIPT_LENGTH →
      whisperPost (some size) (.ok t) = .okError noSpeechMsg ∧
      statusOf (whisperPost (some size) (.ok t)) = 200 ∧
      hasTextField (whisperPost (some size) (.ok t)) = false) ∧
    (MIN_AUDIO_FILE_SIZE ≤ size →
      MIN_TRANSCRIPT_LENGTH ≤ (cleanTranscript t).length →
      whisperPost (some size) (.ok t) = .okText (cleanTranscript t)) ∧
    (∀ u, whisperPost (some size) (.ok t) = .okText u →
      MIN_AUDIO_FILE_SIZE ≤ size ∧
      MIN_TRANSCRIPT_LENGTH ≤ (cleanTranscript t).length ∧
      u = cleanTranscript t) := by
  refine ⟨⟨rfl, rfl, rfl, rfl⟩, ?_, ?_, ?_, ?_⟩
  · intro h
    simp [whisperPost, h, statusOf, hasTextField]
  · intro h hc
    simp [whisperPost, not_lt.mpr h, finalizeTranscript, hc, statusOf,
      hasTextField]
  · intro h hc
    simp [whisperPost, not_lt.mpr h, finalizeTranscript, not_lt.mpr hc]
  · intro u hu
    by_cases hs : size < MIN_AUDIO_FILE_SIZE
    · simp [whisperPost, hs] at hu
    · by_cases hc : (cleanTranscript t).length < MIN_TRANSCRIPT_LENGTH
      · simp [whisperPost, hs, finalizeTranscript, hc] at hu
      · refine ⟨not_lt.mp hs, not_lt.mp hc, ?_⟩
        simpa [whisperPost, hs, finalizeTranscript, hc] using hu.symm

/-- C10 witness: the contract at a concrete large file with a meaningful
transcript and at a concrete small file. -/
theorem whisperPost_contract_witness :
    whisperPost (some 2000) (.ok "  hello   world  ".toList) =
      .okText "hello world".toList ∧
    whisperPost (some 500) (.ok "  hello   world  ".toList) =
      .okError noAudioMsg := by
  constructor
  · have h := (whisperPost_contract 2000 "  hello   world  ".toList).2.2.2.1
      (by decide) (by decide)
    rw [h]
    decide
  · exact ((whisperPost_contract 500 "  hello   world  ".toList).2.1
      (by decide)).1

end NeuralSkyAssist
